import Mathlib

/-!
# Unix clock support of the Lingua Franca C runtime

A shallow embedding of `org.lflang/src/lib/core/platform/lf_unix_clock_support.c`.

* `long long` values (`instant_t`, `interval_t`) and the two fields of a
  `struct timespec` are integers; every arithmetic step that C performs on
  `long long` goes through `add64`, `sub64` or `mul64`, which return the
  two's-complement result together with a flag telling whether the exact
  result left the signed 64-bit range (undefined behaviour in C).
* The global `_lf_epoch_offset` lives in `World`, next to a log of the
  `clock_gettime` calls made so far and a sticky overflow flag.
* The operating system's `clock_gettime` is a parameter of the stateful
  functions: an oracle mapping the calls made so far and the requested clock
  to the `int` it returns and the contents it leaves in the buffer.
-/

namespace LfUnixClock

/-! ## Signed 64-bit arithmetic -/

/-- Smallest `long long`. -/
def INT64_MIN : Int := -9223372036854775808

/-- Largest `long long`. -/
def INT64_MAX : Int := 9223372036854775807

/-- The integer `x` is representable as a signed 64-bit value. -/
def fits64 (x : Int) : Prop := INT64_MIN ≤ x ∧ x ≤ INT64_MAX

instance fits64_decidable (x : Int) : Decidable (fits64 x) := by
  unfold fits64
  exact inferInstance

/-- Two's-complement reduction of `x` into the signed 64-bit range. -/
def wrap64 (x : Int) : Int :=
  (x + 9223372036854775808) % 18446744073709551616 - 9223372036854775808

/-- Outcome of `long long` arithmetic: the 64-bit value produced, and whether
the exact result of some step left the signed 64-bit range. -/
structure Checked where
  val : Int
  overflow : Bool
deriving DecidableEq

/-- C `a + b` on `long long`. -/
def add64 (a b : Int) : Checked := ⟨wrap64 (a + b), !decide (fits64 (a + b))⟩

/-- C `a - b` on `long long`. -/
def sub64 (a b : Int) : Checked := ⟨wrap64 (a - b), !decide (fits64 (a - b))⟩

/-- C `a * b` on `long long`. -/
def mul64 (a b : Int) : Checked := ⟨wrap64 (a * b), !decide (fits64 (a * b))⟩

/-! ## Data model -/

/-- Modelled from the spec: `struct timespec` / `_lf_time_spec_t` are declared
in headers outside this file; a SplitTime is a pair of a signed 64-bit
seconds count and a nanoseconds count (both 64 bits wide on the LP64 Unix
targets this file is compiled for). -/
structure timespec where
  tv_sec : Int
  tv_nsec : Int
deriving DecidableEq

/-- The runtime's name for `struct timespec`. -/
abbrev _lf_time_spec_t := timespec

/-- Clock identifiers of `<time.h>` (`clockid_t` is an `int`). -/
abbrev clockid_t := Int

/-- The wall clock, `CLOCK_REALTIME` of `<time.h>`. -/
def CLOCK_REALTIME : clockid_t := 0

/-- The monotonic clock, `CLOCK_MONOTONIC` of `<time.h>`. -/
def CLOCK_MONOTONIC : clockid_t := 1

/-- What one call `clock_gettime(clk, &buf)` does: the `int` it returns and
the contents of `buf` after the call (on failure: whatever the buffer holds,
the platform does not promise to write it). -/
structure ClockResult where
  ret : Int
  tp : timespec
deriving DecidableEq

/-- The platform clock primitive: given the clocks requested by the earlier
calls (oldest first) and the clock requested now, the outcome of the call. -/
abbrev Platform := List clockid_t → clockid_t → ClockResult

/-- Process state: the global `_lf_epoch_offset`, the log of platform clock
reads performed so far (oldest first), and whether some `long long` step has
overflowed so far. -/
structure World where
  _lf_epoch_offset : Int
  clock_calls : List clockid_t
  overflowed : Bool
deriving DecidableEq

/-- State at program start: `interval_t _lf_epoch_offset = 0LL;`. -/
def World.init : World := ⟨0, [], false⟩

/-! ## The functions of `lf_unix_clock_support.c` -/

/-- Source `instant_t convert_timespec_to_ns(_lf_time_spec_t tp)`:
`return tp.tv_sec * 1000000000 + tp.tv_nsec;`. -/
def convert_timespec_to_ns (tp : _lf_time_spec_t) : Checked :=
  let product := mul64 tp.tv_sec 1000000000
  let sum := add64 product.val tp.tv_nsec
  ⟨sum.val, product.overflow || sum.overflow⟩

/-- Source `_lf_time_spec_t convert_ns_to_timespec(instant_t t)`:
`tp.tv_sec = t / 1000000000; tp.tv_nsec = (t % 1000000000);` with C's
division truncating toward zero and the remainder taking the sign of `t`. -/
def convert_ns_to_timespec (t : Int) : _lf_time_spec_t :=
  { tv_sec := Int.tdiv t 1000000000, tv_nsec := Int.tmod t 1000000000 }

/-- Source `void calculate_epoch_offset()`; the macro `_LF_CLOCK` (defined in a header
outside this file) and the platform's `clock_gettime` are parameters. The
return values of the two `clock_gettime` calls are ignored, as in the source. -/
def calculate_epoch_offset (_LF_CLOCK : clockid_t) (clock_gettime : Platform)
    (w : World) : World :=
  if _LF_CLOCK = CLOCK_REALTIME then
    { w with _lf_epoch_offset := 0 }
  else
    let physical_clock_snapshot := (clock_gettime w.clock_calls _LF_CLOCK).tp
    let physical_clock_snapshot_ns := convert_timespec_to_ns physical_clock_snapshot
    let real_time_start :=
      (clock_gettime (w.clock_calls ++ [_LF_CLOCK]) CLOCK_REALTIME).tp
    let real_time_start_ns := convert_timespec_to_ns real_time_start
    let difference := sub64 real_time_start_ns.val physical_clock_snapshot_ns.val
    { _lf_epoch_offset := difference.val
      clock_calls := w.clock_calls ++ [_LF_CLOCK] ++ [CLOCK_REALTIME]
      overflowed := w.overflowed || physical_clock_snapshot_ns.overflow
        || real_time_start_ns.overflow || difference.overflow }

/-- Source `void lf_initialize_clock()`: `calculate_epoch_offset();`. -/
def lf_initialize_clock (_LF_CLOCK : clockid_t) (clock_gettime : Platform)
    (w : World) : World :=
  calculate_epoch_offset _LF_CLOCK clock_gettime w

/-- What `lf_clock_gettime(tp)` leaves behind: its `int` return value, the
contents of `*tp`, and the process state. -/
structure GettimeResult where
  return_value : Int
  tp : _lf_time_spec_t
  world : World
deriving DecidableEq

/-- Source `int lf_clock_gettime(_lf_time_spec_t* tp)`: one platform read of
`_LF_CLOCK` into `*tp`; a negative return value is returned at once; otherwise,
if `_lf_epoch_offset` is not zero, `*tp` is encoded, shifted by the offset and
decoded again; the platform's return value is returned. -/
def lf_clock_gettime (_LF_CLOCK : clockid_t) (clock_gettime : Platform)
    (w : World) : GettimeResult :=
  let r := clock_gettime w.clock_calls _LF_CLOCK
  let w1 : World := { w with clock_calls := w.clock_calls ++ [_LF_CLOCK] }
  if r.ret < 0 then
    { return_value := r.ret, tp := r.tp, world := w1 }
  else if w._lf_epoch_offset ≠ 0 then
    let tp_in_ns := convert_timespec_to_ns r.tp
    let shifted := add64 tp_in_ns.val w._lf_epoch_offset
    { return_value := r.ret
      tp := convert_ns_to_timespec shifted.val
      world := { w1 with overflowed := w.overflowed || tp_in_ns.overflow || shifted.overflow } }
  else
    { return_value := r.ret, tp := r.tp, world := w1 }

/-- A platform whose `k`-th call (counting from 0) has the outcome
`script[k]`, whichever clock is requested; calls beyond the script fail
with `-1` and leave zeroes in the buffer. -/
def scriptedPlatform (script : List ClockResult) : Platform :=
  fun earlier _ => script.getD earlier.length ⟨-1, ⟨0, 0⟩⟩

/-! ## Arithmetic lemmas -/

theorem wrap64_of_fits {x : Int} (h : fits64 x) : wrap64 x = x := by
  unfold fits64 INT64_MIN INT64_MAX at h
  unfold wrap64
  omega

theorem fits64_wrap64 (x : Int) : fits64 (wrap64 x) := by
  unfold fits64 INT64_MIN INT64_MAX wrap64
  omega

theorem add64_of_fits {a b : Int} (h : fits64 (a + b)) : add64 a b = ⟨a + b, false⟩ := by
  simp [add64, wrap64_of_fits h, h]

theorem sub64_of_fits {a b : Int} (h : fits64 (a - b)) : sub64 a b = ⟨a - b, false⟩ := by
  simp [sub64, wrap64_of_fits h, h]

theorem mul64_of_fits {a b : Int} (h : fits64 (a * b)) : mul64 a b = ⟨a * b, false⟩ := by
  simp [mul64, wrap64_of_fits h, h]

theorem add64_overflow_false {a b : Int} : (add64 a b).overflow = false ↔ fits64 (a + b) := by
  simp [add64]

theorem sub64_overflow_false {a b : Int} : (sub64 a b).overflow = false ↔ fits64 (a - b) := by
  simp [sub64]

theorem mul64_overflow_false {a b : Int} : (mul64 a b).overflow = false ↔ fits64 (a * b) := by
  simp [mul64]

/-- The encoder reports no overflow exactly when the product and the sum fit. -/
theorem encode_overflow_false (tp : timespec) :
    (convert_timespec_to_ns tp).overflow = false ↔
      fits64 (tp.tv_sec * 1000000000) ∧ fits64 (tp.tv_sec * 1000000000 + tp.tv_nsec) := by
  unfold convert_timespec_to_ns
  simp only [Bool.or_eq_false_iff, mul64_overflow_false, add64_overflow_false]
  constructor
  · rintro ⟨hp, hs⟩
    rw [mul64_of_fits hp] at hs
    exact ⟨hp, hs⟩
  · rintro ⟨hp, hs⟩
    rw [mul64_of_fits hp]
    exact ⟨hp, hs⟩

/-- Without overflow the encoder returns the exact value. -/
theorem encode_val_of_fits (tp : timespec) (hp : fits64 (tp.tv_sec * 1000000000))
    (hs : fits64 (tp.tv_sec * 1000000000 + tp.tv_nsec)) :
    convert_timespec_to_ns tp = ⟨tp.tv_sec * 1000000000 + tp.tv_nsec, false⟩ := by
  unfold convert_timespec_to_ns
  simp only [mul64_of_fits hp, add64_of_fits hs, Bool.or_self]

/-- Truncating division by 10^9: quotient and remainder rebuild `t`, and the
remainder has the sign of `t`. -/
theorem tdiv_tmod_billion (t : Int) :
    Int.tdiv t 1000000000 * 1000000000 + Int.tmod t 1000000000 = t ∧
      (0 ≤ t → 0 ≤ Int.tmod t 1000000000 ∧ Int.tmod t 1000000000 < 1000000000) ∧
      (t ≤ 0 → -1000000000 < Int.tmod t 1000000000 ∧ Int.tmod t 1000000000 ≤ 0) := by
  refine ⟨Int.tdiv_add_tmod' t 1000000000, ?_, ?_⟩
  · intro h
    rw [Int.tmod_eq_emod h (by decide)]
    omega
  · intro h
    have hq : Int.tdiv t 1000000000 = -((-t) / 1000000000) := by
      have h1 : Int.tdiv (-(-t)) 1000000000 = -(Int.tdiv (-t) 1000000000) :=
        Int.neg_tdiv (-t) 1000000000
      rw [Int.neg_neg] at h1
      rw [h1, Int.tdiv_eq_ediv (by omega) (by decide)]
    rw [Int.tmod_def, hq]
    omega

/-- The decoder's two fields, characterised. -/
theorem decode_spec (t : Int) :
    (convert_ns_to_timespec t).tv_sec * 1000000000 + (convert_ns_to_timespec t).tv_nsec = t ∧
      (0 ≤ t → 0 ≤ (convert_ns_to_timespec t).tv_nsec ∧
        (convert_ns_to_timespec t).tv_nsec < 1000000000) ∧
      (t ≤ 0 → -1000000000 < (convert_ns_to_timespec t).tv_nsec ∧
        (convert_ns_to_timespec t).tv_nsec ≤ 0) :=
  tdiv_tmod_billion t

/-- The decoder returns `(q, r)` exactly when `q * 10^9 + r = t` and `r` is a
remainder of the sign of `t`. -/
theorem decode_eq_iff (t q r : Int) :
    convert_ns_to_timespec t = ⟨q, r⟩ ↔
      q * 1000000000 + r = t ∧
        ((0 ≤ t ∧ 0 ≤ r ∧ r < 1000000000) ∨ (t ≤ 0 ∧ -1000000000 < r ∧ r ≤ 0)) := by
  obtain ⟨he, hpos, hneg⟩ := decode_spec t
  generalize convert_ns_to_timespec t = d at he hpos hneg
  obtain ⟨ds, dn⟩ := d
  simp only [timespec.mk.injEq] at he hpos hneg ⊢
  constructor
  · rintro ⟨rfl, rfl⟩
    refine ⟨he, ?_⟩
    rcases Int.le_total 0 t with h | h
    · exact Or.inl ⟨h, hpos h⟩
    · exact Or.inr ⟨h, hneg h⟩
  · rintro ⟨hq, h | h⟩
    · have := hpos h.1
      constructor <;> omega
    · have := hneg h.1
      constructor <;> omega

/-! ## Unfolding lemmas for the stateful functions -/

/-- With a clock other than the wall clock, `calculate_epoch_offset` reads
`_LF_CLOCK`, then `CLOCK_REALTIME`, and stores the 64-bit difference. -/
theorem calculate_epoch_offset_of_ne (clk : clockid_t) (plat : Platform) (w : World)
    (hclk : clk ≠ CLOCK_REALTIME) :
    calculate_epoch_offset clk plat w =
      { _lf_epoch_offset :=
          (sub64 (convert_timespec_to_ns (plat (w.clock_calls ++ [clk]) CLOCK_REALTIME).tp).val
            (convert_timespec_to_ns (plat w.clock_calls clk).tp).val).val
        clock_calls := w.clock_calls ++ [clk] ++ [CLOCK_REALTIME]
        overflowed := w.overflowed
          || (convert_timespec_to_ns (plat w.clock_calls clk).tp).overflow
          || (convert_timespec_to_ns (plat (w.clock_calls ++ [clk]) CLOCK_REALTIME).tp).overflow
          || (sub64 (convert_timespec_to_ns (plat (w.clock_calls ++ [clk]) CLOCK_REALTIME).tp).val
            (convert_timespec_to_ns (plat w.clock_calls clk).tp).val).overflow } := by
  unfold calculate_epoch_offset
  simp only [hclk, if_false]

/-- A failed platform read is passed through by `lf_clock_gettime`. -/
theorem lf_clock_gettime_of_failure (clk : clockid_t) (plat : Platform) (w : World)
    (h : (plat w.clock_calls clk).ret < 0) :
    lf_clock_gettime clk plat w =
      { return_value := (plat w.clock_calls clk).ret
        tp := (plat w.clock_calls clk).tp
        world := { w with clock_calls := w.clock_calls ++ [clk] } } := by
  unfold lf_clock_gettime
  simp only [h, if_true]

/-- Fast path of `lf_clock_gettime`: successful read, zero offset. -/
theorem lf_clock_gettime_of_zero (clk : clockid_t) (plat : Platform) (w : World)
    (h : 0 ≤ (plat w.clock_calls clk).ret) (hoff : w._lf_epoch_offset = 0) :
    lf_clock_gettime clk plat w =
      { return_value := (plat w.clock_calls clk).ret
        tp := (plat w.clock_calls clk).tp
        world := { w with clock_calls := w.clock_calls ++ [clk] } } := by
  unfold lf_clock_gettime
  simp only [not_lt.mpr h, if_false, hoff, ne_eq, not_true_eq_false]

/-- Slow path of `lf_clock_gettime`: successful read, non-zero offset. -/
theorem lf_clock_gettime_of_nonzero (clk : clockid_t) (plat : Platform) (w : World)
    (h : 0 ≤ (plat w.clock_calls clk).ret) (hoff : w._lf_epoch_offset ≠ 0) :
    lf_clock_gettime clk plat w =
      { return_value := (plat w.clock_calls clk).ret
        tp := convert_ns_to_timespec
          (add64 (convert_timespec_to_ns (plat w.clock_calls clk).tp).val
            w._lf_epoch_offset).val
        world :=
          { _lf_epoch_offset := w._lf_epoch_offset
            clock_calls := w.clock_calls ++ [clk]
            overflowed := w.overflowed
              || (convert_timespec_to_ns (plat w.clock_calls clk).tp).overflow
              || (add64 (convert_timespec_to_ns (plat w.clock_calls clk).tp).val
                w._lf_epoch_offset).overflow } } := by
  unfold lf_clock_gettime
  simp only [not_lt.mpr h, if_false, hoff, ne_eq, not_false_eq_true, if_true]

/-! ## Further lemmas on the codec -/

/-- Reducing an intermediate sum does not change the reduced total. -/
theorem wrap64_add_left (x y : Int) : wrap64 (wrap64 x + y) = wrap64 (x + y) := by
  unfold wrap64
  omega

/-- The value the encoder returns is the exact value reduced to 64 bits. -/
theorem encode_val_eq_wrap (tp : timespec) :
    (convert_timespec_to_ns tp).val = wrap64 (tp.tv_sec * 1000000000 + tp.tv_nsec) := by
  unfold convert_timespec_to_ns mul64 add64
  exact wrap64_add_left _ _

/-- Adding the offset to an encoding gives the exact total whenever that total
fits in 64 bits. -/
theorem add64_encode_val_of_fits (tp : timespec) (off : Int)
    (h : fits64 (tp.tv_sec * 1000000000 + tp.tv_nsec + off)) :
    (add64 (convert_timespec_to_ns tp).val off).val
      = tp.tv_sec * 1000000000 + tp.tv_nsec + off := by
  rw [encode_val_eq_wrap]
  unfold add64
  simp only
  rw [wrap64_add_left, wrap64_of_fits h]

/-- Encoding a decoded 64-bit instant gives the instant back without overflow. -/
theorem encode_decode_of_fits (t : Int) (ht : fits64 t) :
    convert_timespec_to_ns (convert_ns_to_timespec t) = ⟨t, false⟩ := by
  obtain ⟨he, hpos, hneg⟩ := decode_spec t
  generalize convert_ns_to_timespec t = d at he hpos hneg
  have hp : fits64 (d.tv_sec * 1000000000) := by
    unfold fits64 INT64_MIN INT64_MAX at ht ⊢
    rcases Int.le_total 0 t with h | h
    · have := hpos h
      omega
    · have := hneg h
      omega
  have hs : fits64 (d.tv_sec * 1000000000 + d.tv_nsec) := by rw [he]; exact ht
  rw [encode_val_of_fits d hp hs, he]

/-- The buffer handed back by `lf_clock_gettime` in each of its three paths. -/
theorem lf_clock_gettime_tp (clk : clockid_t) (plat : Platform) (w : World) :
    (lf_clock_gettime clk plat w).tp =
      if (plat w.clock_calls clk).ret < 0 then (plat w.clock_calls clk).tp
      else if w._lf_epoch_offset ≠ 0 then
        convert_ns_to_timespec
          (add64 (convert_timespec_to_ns (plat w.clock_calls clk).tp).val
            w._lf_epoch_offset).val
      else (plat w.clock_calls clk).tp := by
  unfold lf_clock_gettime
  simp only
  split_ifs <;> rfl

/-- After a successful read whose shifted encoding fits in 64 bits, the
encoding of what `lf_clock_gettime` hands back is the encoding of the raw read
plus the offset. -/
theorem encode_gettime_val (clk : clockid_t) (plat : Platform) (w : World)
    (hret : 0 ≤ (plat w.clock_calls clk).ret)
    (hfit : fits64 ((convert_timespec_to_ns (plat w.clock_calls clk).tp).val
      + w._lf_epoch_offset)) :
    (convert_timespec_to_ns (lf_clock_gettime clk plat w).tp).val
      = (convert_timespec_to_ns (plat w.clock_calls clk).tp).val + w._lf_epoch_offset := by
  rw [lf_clock_gettime_tp]
  simp only [not_lt.mpr hret, if_false]
  by_cases hoff : w._lf_epoch_offset = 0
  · simp only [hoff, ne_eq, not_true_eq_false, if_false]
    omega
  · simp only [ne_eq, hoff, not_false_eq_true, if_true]
    rw [add64_of_fits hfit]
    simp only
    rw [encode_decode_of_fits _ hfit]

/-! ## TimeCodec round trips -/

/-- C1 (as stated, refuted): the split time `(-1, 500000000)` has its
nanoseconds in `[0, 10^9)` and encodes without overflow to `-500000000`, yet
decoding that instant gives `(0, -500000000)`, not the split time we started
from. -/
theorem C1_negative_seconds_counterexample :
    (0 : Int) ≤ 500000000 ∧ (500000000 : Int) < 1000000000 ∧ fits64 (-1) ∧
      convert_timespec_to_ns ⟨-1, 500000000⟩ = ⟨-500000000, false⟩ ∧
      convert_ns_to_timespec (convert_timespec_to_ns ⟨-1, 500000000⟩).val
        = ⟨0, -500000000⟩ ∧
      convert_ns_to_timespec (convert_timespec_to_ns ⟨-1, 500000000⟩).val
        ≠ ⟨-1, 500000000⟩ := by
  decide

/-- C1 (amended): for a split time with nanoseconds in `[0, 10^9)` whose
encoding does not overflow, decoding the encoding gives the split time back
exactly when its seconds are non-negative or its nanoseconds are zero. -/
theorem C1_decode_encode_roundtrip (s : timespec) (h0 : 0 ≤ s.tv_nsec)
    (h1 : s.tv_nsec < 1000000000) (hov : (convert_timespec_to_ns s).overflow = false) :
    convert_ns_to_timespec (convert_timespec_to_ns s).val = s ↔
      (0 ≤ s.tv_sec ∨ s.tv_nsec = 0) := by
  obtain ⟨hp, hs⟩ := (encode_overflow_false s).1 hov
  rw [encode_val_of_fits s hp hs]
  obtain ⟨sec, nsec⟩ := s
  simp only at h0 h1 ⊢
  rw [decode_eq_iff]
  constructor
  · rintro ⟨-, h | h⟩ <;> omega
  · intro h
    refine ⟨rfl, ?_⟩
    omega

/-- C1 (amended), applied to the split time `(1700000000, 500)`: the
hypotheses hold there and the round trip gives the split time back. -/
theorem C1_decode_encode_roundtrip_witness :
    (0 : Int) ≤ 500 ∧ (500 : Int) < 1000000000 ∧
      (convert_timespec_to_ns ⟨1700000000, 500⟩).overflow = false ∧
      convert_ns_to_timespec (convert_timespec_to_ns ⟨1700000000, 500⟩).val
        = ⟨1700000000, 500⟩ :=
  ⟨by decide, by decide, by decide,
    (C1_decode_encode_roundtrip ⟨1700000000, 500⟩ (by decide) (by decide) (by decide)).2
      (Or.inl (by decide))⟩

/-- C2: for every signed 64-bit instant `t`, negative ones included, encoding
the decoding of `t` returns `t`, no step of the encoder overflows, and both
decoded fields are 64-bit values. -/
theorem C2_encode_decode_roundtrip (t : Int) (ht : fits64 t) :
    convert_timespec_to_ns (convert_ns_to_timespec t) = ⟨t, false⟩ ∧
      fits64 (convert_ns_to_timespec t).tv_sec ∧
      fits64 (convert_ns_to_timespec t).tv_nsec ∧
      fits64 ((convert_ns_to_timespec t).tv_sec * 1000000000) := by
  obtain ⟨he, hpos, hneg⟩ := decode_spec t
  generalize convert_ns_to_timespec t = d at he hpos hneg
  obtain ⟨q, r⟩ := d
  simp only at he hpos hneg ⊢
  have hbounds : fits64 q ∧ fits64 r ∧ fits64 (q * 1000000000) := by
    unfold fits64 INT64_MIN INT64_MAX at ht ⊢
    rcases Int.le_total 0 t with h | h
    · have := hpos h
      omega
    · have := hneg h
      omega
  refine ⟨?_, hbounds⟩
  have hs : fits64 (q * 1000000000 + r) := by rw [he]; exact ht
  rw [encode_val_of_fits ⟨q, r⟩ hbounds.2.2 hs]
  simp only [he]

/-- C2, applied to the smallest 64-bit instant. -/
theorem C2_encode_decode_roundtrip_witness :
    fits64 (-9223372036854775808) ∧
      convert_ns_to_timespec (-9223372036854775808) = ⟨-9223372036, -854775808⟩ ∧
      convert_timespec_to_ns (convert_ns_to_timespec (-9223372036854775808))
        = ⟨-9223372036854775808, false⟩ :=
  ⟨by decide, by decide, (C2_encode_decode_roundtrip (-9223372036854775808) (by decide)).1⟩

/-! ## Reading the clock -/

/-- C3 (as stated, refuted): with epoch offset `-1` and a successful platform
read of `(0, 0)`, whose nanoseconds lie in `[0, 10^9)`, the call succeeds
without overflow and returns `(0, -1)`: the returned nanoseconds are not in
`[0, 10^9)`. -/
theorem C3_negative_sum_counterexample :
    lf_clock_gettime CLOCK_MONOTONIC (scriptedPlatform [⟨0, ⟨0, 0⟩⟩]) ⟨-1, [], false⟩
        = ⟨0, ⟨0, -1⟩, ⟨-1, [CLOCK_MONOTONIC], false⟩⟩ ∧
      ¬ (0 ≤ (lf_clock_gettime CLOCK_MONOTONIC (scriptedPlatform [⟨0, ⟨0, 0⟩⟩])
        ⟨-1, [], false⟩).tp.tv_nsec) := by
  decide

/-- C3 (amended): when the platform read succeeds with nanoseconds in
`[0, 10^9)` and no 64-bit step of the call overflows, the returned split time
satisfies `sec * 10^9 + nsec = input_sec * 10^9 + input_nsec + offset`, its
nanoseconds lie strictly between `-10^9` and `10^9`, and they are
non-negative exactly when the offset is zero, or that sum is non-negative, or
it is a multiple of `10^9`. -/
theorem C3_gettime_adds_offset (clk : clockid_t) (plat : Platform) (w : World)
    (hret : 0 ≤ (plat w.clock_calls clk).ret)
    (h0 : 0 ≤ (plat w.clock_calls clk).tp.tv_nsec)
    (h1 : (plat w.clock_calls clk).tp.tv_nsec < 1000000000)
    (hov : (lf_clock_gettime clk plat w).world.overflowed = false) :
    (lf_clock_gettime clk plat w).tp.tv_sec * 1000000000
        + (lf_clock_gettime clk plat w).tp.tv_nsec
      = (plat w.clock_calls clk).tp.tv_sec * 1000000000
        + (plat w.clock_calls clk).tp.tv_nsec + w._lf_epoch_offset ∧
      -1000000000 < (lf_clock_gettime clk plat w).tp.tv_nsec ∧
      (lf_clock_gettime clk plat w).tp.tv_nsec < 1000000000 ∧
      (0 ≤ (lf_clock_gettime clk plat w).tp.tv_nsec ↔
        (w._lf_epoch_offset = 0 ∨
          0 ≤ (plat w.clock_calls clk).tp.tv_sec * 1000000000
            + (plat w.clock_calls clk).tp.tv_nsec + w._lf_epoch_offset ∨
          ((plat w.clock_calls clk).tp.tv_sec * 1000000000
            + (plat w.clock_calls clk).tp.tv_nsec + w._lf_epoch_offset) % 1000000000 = 0)) := by
  generalize hr : plat w.clock_calls clk = r at hret h0 h1
  unfold lf_clock_gettime at hov ⊢
  simp only [hr, not_lt.mpr hret, if_false] at hov ⊢
  by_cases hoff : w._lf_epoch_offset = 0
  · simp only [hoff, ne_eq, not_true_eq_false, if_false, true_or, iff_true] at hov ⊢
    omega
  · simp only [ne_eq, hoff, not_false_eq_true, if_true, Bool.or_eq_false_iff] at hov ⊢
    obtain ⟨⟨-, henc⟩, hadd⟩ := hov
    obtain ⟨hp, hs⟩ := (encode_overflow_false r.tp).1 henc
    rw [encode_val_of_fits r.tp hp hs] at hadd ⊢
    simp only at hadd ⊢
    have hfit := add64_overflow_false.1 hadd
    rw [add64_of_fits hfit]
    simp only
    obtain ⟨he, hpos, hneg⟩ :=
      decode_spec (r.tp.tv_sec * 1000000000 + r.tp.tv_nsec + w._lf_epoch_offset)
    generalize convert_ns_to_timespec
      (r.tp.tv_sec * 1000000000 + r.tp.tv_nsec + w._lf_epoch_offset) = d at he hpos hneg
    generalize r.tp.tv_sec * 1000000000 + r.tp.tv_nsec + w._lf_epoch_offset = t
      at he hpos hneg
    simp only [false_or]
    rcases Int.le_total 0 t with h | h
    · have := hpos h
      omega
    · have := hneg h
      omega

/-- C3 (amended), applied to the spec's carry case: offset
`1699999995000000000` and a raw read of `(5, 999999999)` give
`(1700000000, 999999999)`. -/
theorem C3_gettime_adds_offset_witness :
    lf_clock_gettime CLOCK_MONOTONIC (scriptedPlatform [⟨0, ⟨5, 999999999⟩⟩])
        ⟨1699999995000000000, [], false⟩
        = ⟨0, ⟨1700000000, 999999999⟩, ⟨1699999995000000000, [CLOCK_MONOTONIC], false⟩⟩ ∧
      (lf_clock_gettime CLOCK_MONOTONIC (scriptedPlatform [⟨0, ⟨5, 999999999⟩⟩])
        ⟨1699999995000000000, [], false⟩).tp.tv_sec * 1000000000
        + (lf_clock_gettime CLOCK_MONOTONIC (scriptedPlatform [⟨0, ⟨5, 999999999⟩⟩])
          ⟨1699999995000000000, [], false⟩).tp.tv_nsec
        = 5 * 1000000000 + 999999999 + 1699999995000000000 :=
  ⟨by decide,
    (C3_gettime_adds_offset CLOCK_MONOTONIC (scriptedPlatform [⟨0, ⟨5, 999999999⟩⟩])
      ⟨1699999995000000000, [], false⟩ (by decide) (by decide) (by decide) (by decide)).1⟩

/-! ## Initialising the epoch offset -/

/-- C4: when `_LF_CLOCK` is `CLOCK_REALTIME`, `calculate_epoch_offset` and
`lf_initialize_clock` set the epoch offset to exactly 0 whatever it was
before, and perform no platform clock read: the call log is unchanged and
the resulting state is the same for every platform. -/
theorem C4_wall_clock_offset_zero (plat plat2 : Platform) (w : World) :
    (calculate_epoch_offset CLOCK_REALTIME plat w)._lf_epoch_offset = 0 ∧
      (calculate_epoch_offset CLOCK_REALTIME plat w).clock_calls = w.clock_calls ∧
      calculate_epoch_offset CLOCK_REALTIME plat w
        = calculate_epoch_offset CLOCK_REALTIME plat2 w ∧
      (lf_initialize_clock CLOCK_REALTIME plat w)._lf_epoch_offset = 0 ∧
      (lf_initialize_clock CLOCK_REALTIME plat w).clock_calls = w.clock_calls ∧
      lf_initialize_clock CLOCK_REALTIME plat w
        = lf_initialize_clock CLOCK_REALTIME plat2 w := by
  simp [lf_initialize_clock, calculate_epoch_offset]

/-- C5: when `_LF_CLOCK` is not the wall clock and the two reads of
`calculate_epoch_offset` leave `s` (from `_LF_CLOCK`) and `wall` (from
`CLOCK_REALTIME`) in their buffers, the new epoch offset is the 64-bit
difference `encode(wall) - encode(s)`; when no 64-bit step overflowed it is
the exact difference of the two nanosecond counts. -/
theorem C5_offset_is_wall_minus_source (clk : clockid_t) (plat : Platform) (w : World)
    (s wall : timespec) (hclk : clk ≠ CLOCK_REALTIME)
    (hs : (plat w.clock_calls clk).tp = s)
    (hw : (plat (w.clock_calls ++ [clk]) CLOCK_REALTIME).tp = wall) :
    (calculate_epoch_offset clk plat w)._lf_epoch_offset
        = (sub64 (convert_timespec_to_ns wall).val (convert_timespec_to_ns s).val).val ∧
      ((calculate_epoch_offset clk plat w).overflowed = false →
        (calculate_epoch_offset clk plat w)._lf_epoch_offset
          = (wall.tv_sec * 1000000000 + wall.tv_nsec)
            - (s.tv_sec * 1000000000 + s.tv_nsec)) := by
  unfold calculate_epoch_offset
  simp only [hclk, if_false, hs, hw, Bool.or_eq_false_iff, true_and]
  rintro ⟨⟨⟨-, hso⟩, hwo⟩, hd⟩
  obtain ⟨hsp, hss⟩ := (encode_overflow_false s).1 hso
  obtain ⟨hwp, hws⟩ := (encode_overflow_false wall).1 hwo
  rw [encode_val_of_fits s hsp hss, encode_val_of_fits wall hwp hws] at hd ⊢
  simp only at hd ⊢
  rw [sub64_of_fits (sub64_overflow_false.1 hd)]

/-- C5, applied to the spec's example: a monotonic read of `(5, 0)` and a
wall-clock read of `(1700000000, 0)` give the offset `1699999995000000000`. -/
theorem C5_offset_is_wall_minus_source_witness :
    CLOCK_MONOTONIC ≠ CLOCK_REALTIME ∧
      (calculate_epoch_offset CLOCK_MONOTONIC
        (scriptedPlatform [⟨0, ⟨5, 0⟩⟩, ⟨0, ⟨1700000000, 0⟩⟩]) World.init)._lf_epoch_offset
        = (1700000000 * 1000000000 + 0) - (5 * 1000000000 + 0) ∧
      (1700000000 * 1000000000 + 0) - (5 * 1000000000 + 0) = (1699999995000000000 : Int) :=
  ⟨by decide,
    (C5_offset_is_wall_minus_source CLOCK_MONOTONIC
      (scriptedPlatform [⟨0, ⟨5, 0⟩⟩, ⟨0, ⟨1700000000, 0⟩⟩]) World.init
      ⟨5, 0⟩ ⟨1700000000, 0⟩ (by decide) (by decide) (by decide)).2 (by decide),
    by decide⟩

/-- C6: end-to-end epoch normalisation. With a clock other than the wall
clock, if initialisation sampled `s` from `_LF_CLOCK` and `wall` from
`CLOCK_REALTIME`, and the next `lf_clock_gettime` reads `r` successfully,
where `wall` and `r` have non-negative seconds and nanoseconds in
`[0, 10^9)`, `encode(s) ≤ encode(r)` and nothing overflows 64 bits, then the
call returns the platform's return value and the split time
`decode(encode(wall) + (encode(r) - encode(s)))`, which has nanoseconds in
`[0, 10^9)` and the exact value wall + (r - s) in nanoseconds. -/
theorem C6_end_to_end_normalisation (clk : clockid_t) (plat : Platform) (w0 : World)
    (s wall r : timespec) (hclk : clk ≠ CLOCK_REALTIME)
    (hs : (plat w0.clock_calls clk).tp = s)
    (hw : (plat (w0.clock_calls ++ [clk]) CLOCK_REALTIME).tp = wall)
    (hr : (plat (w0.clock_calls ++ [clk] ++ [CLOCK_REALTIME]) clk).tp = r)
    (hret : 0 ≤ (plat (w0.clock_calls ++ [clk] ++ [CLOCK_REALTIME]) clk).ret)
    (hwsec : 0 ≤ wall.tv_sec) (hwn : 0 ≤ wall.tv_nsec)
    (hrsec : 0 ≤ r.tv_sec) (hrn0 : 0 ≤ r.tv_nsec) (hrn1 : r.tv_nsec < 1000000000)
    (hge : (convert_timespec_to_ns s).val ≤ (convert_timespec_to_ns r).val)
    (hrov : (convert_timespec_to_ns r).overflow = false)
    (hov : (lf_clock_gettime clk plat (calculate_epoch_offset clk plat w0)).world.overflowed
      = false) :
    (lf_clock_gettime clk plat (calculate_epoch_offset clk plat w0)).return_value
        = (plat (w0.clock_calls ++ [clk] ++ [CLOCK_REALTIME]) clk).ret ∧
      (lf_clock_gettime clk plat (calculate_epoch_offset clk plat w0)).tp
        = convert_ns_to_timespec ((convert_timespec_to_ns wall).val
          + ((convert_timespec_to_ns r).val - (convert_timespec_to_ns s).val)) ∧
      (lf_clock_gettime clk plat (calculate_epoch_offset clk plat w0)).tp.tv_sec * 1000000000
        + (lf_clock_gettime clk plat (calculate_epoch_offset clk plat w0)).tp.tv_nsec
        = (wall.tv_sec * 1000000000 + wall.tv_nsec)
          + ((r.tv_sec * 1000000000 + r.tv_nsec) - (s.tv_sec * 1000000000 + s.tv_nsec)) ∧
      0 ≤ (lf_clock_gettime clk plat (calculate_epoch_offset clk plat w0)).tp.tv_nsec ∧
      (lf_clock_gettime clk plat (calculate_epoch_offset clk plat w0)).tp.tv_nsec
        < 1000000000 := by
  have hinit := calculate_epoch_offset_of_ne clk plat w0 hclk
  rw [hs, hw] at hinit
  generalize calculate_epoch_offset clk plat w0 = w1 at hinit hov ⊢
  have hcalls : w1.clock_calls = w0.clock_calls ++ [clk] ++ [CLOCK_REALTIME] := by rw [hinit]
  have hret1 : 0 ≤ (plat w1.clock_calls clk).ret := by rw [hcalls]; exact hret
  have hr1 : (plat w1.clock_calls clk).tp = r := by rw [hcalls]; exact hr
  rw [← hcalls]
  -- the initialisation did not overflow, so the stored offset is exact
  have hw1ov : w1.overflowed = false := by
    by_cases hoff : w1._lf_epoch_offset = 0
    · rw [lf_clock_gettime_of_zero clk plat w1 hret1 hoff] at hov
      exact hov
    · rw [lf_clock_gettime_of_nonzero clk plat w1 hret1 hoff] at hov
      simp only [Bool.or_eq_false_iff] at hov
      exact hov.1.1
  have hoffset : w1._lf_epoch_offset = (sub64 (convert_timespec_to_ns wall).val
      (convert_timespec_to_ns s).val).val := by rw [hinit]
  have hflags : (convert_timespec_to_ns s).overflow = false ∧
      (convert_timespec_to_ns wall).overflow = false ∧
      (sub64 (convert_timespec_to_ns wall).val (convert_timespec_to_ns s).val).overflow
        = false := by
    rw [hinit] at hw1ov
    simp only [Bool.or_eq_false_iff] at hw1ov
    exact ⟨hw1ov.1.1.2, hw1ov.1.2, hw1ov.2⟩
  obtain ⟨hsp, hss⟩ := (encode_overflow_false s).1 hflags.1
  obtain ⟨hwp, hws⟩ := (encode_overflow_false wall).1 hflags.2.1
  obtain ⟨hrp, hrs⟩ := (encode_overflow_false r).1 hrov
  have hdiff := hflags.2.2
  rw [encode_val_of_fits s hsp hss, encode_val_of_fits r hrp hrs] at hge
  rw [encode_val_of_fits s hsp hss, encode_val_of_fits wall hwp hws] at hoffset hdiff
  rw [encode_val_of_fits s hsp hss, encode_val_of_fits wall hwp hws,
    encode_val_of_fits r hrp hrs]
  simp only at hge hoffset hdiff ⊢
  rw [sub64_of_fits (sub64_overflow_false.1 hdiff)] at hoffset
  simp only at hoffset
  clear hinit hflags hdiff hcalls
  by_cases hoff : w1._lf_epoch_offset = 0
  · rw [lf_clock_gettime_of_zero clk plat w1 hret1 hoff]
    simp only [hr1]
    have heq : wall.tv_sec * 1000000000 + wall.tv_nsec
        + (r.tv_sec * 1000000000 + r.tv_nsec - (s.tv_sec * 1000000000 + s.tv_nsec))
        = r.tv_sec * 1000000000 + r.tv_nsec := by omega
    rw [heq]
    refine ⟨trivial, ?_, rfl, hrn0, hrn1⟩
    obtain ⟨rs, rn⟩ := r
    exact ((decode_eq_iff _ rs rn).2 ⟨rfl, Or.inl ⟨by simp only at *; omega, hrn0, hrn1⟩⟩).symm
  · rw [lf_clock_gettime_of_nonzero clk plat w1 hret1 hoff] at hov ⊢
    simp only [hr1, Bool.or_eq_false_iff] at hov ⊢
    rw [encode_val_of_fits r hrp hrs] at hov ⊢
    simp only at hov ⊢
    rw [add64_of_fits (add64_overflow_false.1 hov.2)]
    simp only [hoffset]
    have heq : r.tv_sec * 1000000000 + r.tv_nsec
        + (wall.tv_sec * 1000000000 + wall.tv_nsec - (s.tv_sec * 1000000000 + s.tv_nsec))
        = wall.tv_sec * 1000000000 + wall.tv_nsec
        + (r.tv_sec * 1000000000 + r.tv_nsec - (s.tv_sec * 1000000000 + s.tv_nsec)) := by
      omega
    rw [heq]
    obtain ⟨he, hpos, -⟩ := decode_spec (wall.tv_sec * 1000000000 + wall.tv_nsec
        + (r.tv_sec * 1000000000 + r.tv_nsec - (s.tv_sec * 1000000000 + s.tv_nsec)))
    exact ⟨trivial, rfl, he, hpos (by omega)⟩

/-- C6, applied to the spec's example: initialisation samples `(5, 0)` on the
monotonic clock and `(1700000000, 0)` on the wall clock; a later monotonic
read of `(10, 500)` is reported as `(1700000005, 500)`. -/
theorem C6_end_to_end_normalisation_witness :
    (lf_clock_gettime CLOCK_MONOTONIC
        (scriptedPlatform [⟨0, ⟨5, 0⟩⟩, ⟨0, ⟨1700000000, 0⟩⟩, ⟨0, ⟨10, 500⟩⟩])
        (calculate_epoch_offset CLOCK_MONOTONIC
          (scriptedPlatform [⟨0, ⟨5, 0⟩⟩, ⟨0, ⟨1700000000, 0⟩⟩, ⟨0, ⟨10, 500⟩⟩])
          World.init)).tp
      = convert_ns_to_timespec ((convert_timespec_to_ns ⟨1700000000, 0⟩).val
          + ((convert_timespec_to_ns ⟨10, 500⟩).val - (convert_timespec_to_ns ⟨5, 0⟩).val)) ∧
      convert_ns_to_timespec ((convert_timespec_to_ns ⟨1700000000, 0⟩).val
          + ((convert_timespec_to_ns ⟨10, 500⟩).val - (convert_timespec_to_ns ⟨5, 0⟩).val))
        = ⟨1700000005, 500⟩ :=
  ⟨(C6_end_to_end_normalisation CLOCK_MONOTONIC
      (scriptedPlatform [⟨0, ⟨5, 0⟩⟩, ⟨0, ⟨1700000000, 0⟩⟩, ⟨0, ⟨10, 500⟩⟩]) World.init
      ⟨5, 0⟩ ⟨1700000000, 0⟩ ⟨10, 500⟩ (by decide) (by decide) (by decide) (by decide)
      (by decide) (by decide) (by decide) (by decide) (by decide) (by decide) (by decide)
      (by decide) (by decide)).2.1,
    by decide⟩

/-- C7: `lf_clock_gettime` performs exactly one platform read, of
`_LF_CLOCK`, and returns that read's return value as is, so it fails exactly
when the platform read fails; on failure the buffer is what the platform left
in it and neither the epoch offset nor the overflow flag is touched (no
offset arithmetic is done). -/
theorem C7_failure_propagates (clk : clockid_t) (plat : Platform) (w : World) :
    (lf_clock_gettime clk plat w).return_value = (plat w.clock_calls clk).ret ∧
      ((lf_clock_gettime clk plat w).return_value < 0 ↔ (plat w.clock_calls clk).ret < 0) ∧
      (lf_clock_gettime clk plat w).world.clock_calls = w.clock_calls ++ [clk] ∧
      ((plat w.clock_calls clk).ret < 0 →
        lf_clock_gettime clk plat w =
          { return_value := (plat w.clock_calls clk).ret
            tp := (plat w.clock_calls clk).tp
            world := { w with clock_calls := w.clock_calls ++ [clk] } }) ∧
      ((plat w.clock_calls clk).ret = 0 → (lf_clock_gettime clk plat w).return_value = 0) := by
  have hret : (lf_clock_gettime clk plat w).return_value = (plat w.clock_calls clk).ret := by
    unfold lf_clock_gettime
    simp only
    split_ifs <;> rfl
  have hcalls : (lf_clock_gettime clk plat w).world.clock_calls = w.clock_calls ++ [clk] := by
    unfold lf_clock_gettime
    simp only
    split_ifs <;> rfl
  refine ⟨hret, by rw [hret], hcalls, lf_clock_gettime_of_failure clk plat w, ?_⟩
  intro h
  rw [hret, h]

/-- C7, applied to a failing read (`-1`, buffer left at `(7, 7)`) with epoch
offset 5: the call returns `-1`, hands back the buffer untouched, and has made
one platform read. -/
theorem C7_failure_propagates_witness :
    ((scriptedPlatform [⟨-1, ⟨7, 7⟩⟩]) [] CLOCK_MONOTONIC).ret < 0 ∧
      lf_clock_gettime CLOCK_MONOTONIC (scriptedPlatform [⟨-1, ⟨7, 7⟩⟩]) ⟨5, [], false⟩
        = ⟨-1, ⟨7, 7⟩, ⟨5, [CLOCK_MONOTONIC], false⟩⟩ :=
  ⟨by decide,
    (C7_failure_propagates CLOCK_MONOTONIC (scriptedPlatform [⟨-1, ⟨7, 7⟩⟩])
      ⟨5, [], false⟩).2.2.2.1 (by decide)⟩

/-- C8: initialisation overwrites. With a clock other than the wall clock,
the epoch offset after `calculate_epoch_offset` is the same for any two prior
states and platforms that deliver the same two samples to that call; and
after two initialisations in a row it is the 64-bit difference
`encode(w2) - encode(s2)` of the second call's samples, which is the exact
difference when the second computation does not overflow. -/
theorem C8_reinitialisation_overwrites (clk : clockid_t) (hclk : clk ≠ CLOCK_REALTIME) :
    (∀ (plat plat2 : Platform) (w w2 : World),
        (plat w.clock_calls clk).tp = (plat2 w2.clock_calls clk).tp →
        (plat (w.clock_calls ++ [clk]) CLOCK_REALTIME).tp
          = (plat2 (w2.clock_calls ++ [clk]) CLOCK_REALTIME).tp →
        (calculate_epoch_offset clk plat w)._lf_epoch_offset
          = (calculate_epoch_offset clk plat2 w2)._lf_epoch_offset) ∧
      (∀ (plat : Platform) (w0 : World) (s2 wall2 : timespec),
        (plat (w0.clock_calls ++ [clk] ++ [CLOCK_REALTIME]) clk).tp = s2 →
        (plat (w0.clock_calls ++ [clk] ++ [CLOCK_REALTIME] ++ [clk]) CLOCK_REALTIME).tp
          = wall2 →
        (calculate_epoch_offset clk plat (calculate_epoch_offset clk plat w0))._lf_epoch_offset
            = (sub64 (convert_timespec_to_ns wall2).val (convert_timespec_to_ns s2).val).val ∧
          ((convert_timespec_to_ns s2).overflow = false →
            (convert_timespec_to_ns wall2).overflow = false →
            fits64 ((wall2.tv_sec * 1000000000 + wall2.tv_nsec)
              - (s2.tv_sec * 1000000000 + s2.tv_nsec)) →
            (calculate_epoch_offset clk plat
                (calculate_epoch_offset clk plat w0))._lf_epoch_offset
              = (wall2.tv_sec * 1000000000 + wall2.tv_nsec)
                - (s2.tv_sec * 1000000000 + s2.tv_nsec))) := by
  constructor
  · intro plat plat2 w w2 h1 h2
    rw [calculate_epoch_offset_of_ne clk plat w hclk,
      calculate_epoch_offset_of_ne clk plat2 w2 hclk]
    simp only [h1, h2]
  · intro plat w0 s2 wall2 hs hw
    have hcalls : (calculate_epoch_offset clk plat w0).clock_calls
        = w0.clock_calls ++ [clk] ++ [CLOCK_REALTIME] := by
      rw [calculate_epoch_offset_of_ne clk plat w0 hclk]
    have hval : (calculate_epoch_offset clk plat
        (calculate_epoch_offset clk plat w0))._lf_epoch_offset
        = (sub64 (convert_timespec_to_ns wall2).val (convert_timespec_to_ns s2).val).val := by
      rw [calculate_epoch_offset_of_ne clk plat (calculate_epoch_offset clk plat w0) hclk]
      simp only [hcalls, hs, hw]
    refine ⟨hval, ?_⟩
    intro hso hwo hfit
    obtain ⟨hsp, hss⟩ := (encode_overflow_false s2).1 hso
    obtain ⟨hwp, hws⟩ := (encode_overflow_false wall2).1 hwo
    rw [hval, encode_val_of_fits s2 hsp hss, encode_val_of_fits wall2 hwp hws]
    simp only
    rw [sub64_of_fits hfit]

/-- C8, applied to two initialisations in a row: the first samples
`(5, 0)` and `(1700000000, 0)`, the second `(7, 250)` and `(1800000000, 750)`;
the offset left behind is that of the second pair alone. -/
theorem C8_reinitialisation_overwrites_witness :
    CLOCK_MONOTONIC ≠ CLOCK_REALTIME ∧
      (calculate_epoch_offset CLOCK_MONOTONIC
        (scriptedPlatform [⟨0, ⟨5, 0⟩⟩, ⟨0, ⟨1700000000, 0⟩⟩,
          ⟨0, ⟨7, 250⟩⟩, ⟨0, ⟨1800000000, 750⟩⟩]) World.init)._lf_epoch_offset
        = 1699999995000000000 ∧
      (calculate_epoch_offset CLOCK_MONOTONIC
        (scriptedPlatform [⟨0, ⟨5, 0⟩⟩, ⟨0, ⟨1700000000, 0⟩⟩,
          ⟨0, ⟨7, 250⟩⟩, ⟨0, ⟨1800000000, 750⟩⟩])
        (calculate_epoch_offset CLOCK_MONOTONIC
          (scriptedPlatform [⟨0, ⟨5, 0⟩⟩, ⟨0, ⟨1700000000, 0⟩⟩,
            ⟨0, ⟨7, 250⟩⟩, ⟨0, ⟨1800000000, 750⟩⟩]) World.init))._lf_epoch_offset
        = (1800000000 * 1000000000 + 750) - (7 * 1000000000 + 250) :=
  ⟨by decide, by decide,
    ((C8_reinitialisation_overwrites CLOCK_MONOTONIC (by decide)).2
      (scriptedPlatform [⟨0, ⟨5, 0⟩⟩, ⟨0, ⟨1700000000, 0⟩⟩,
        ⟨0, ⟨7, 250⟩⟩, ⟨0, ⟨1800000000, 750⟩⟩]) World.init
      ⟨7, 250⟩ ⟨1800000000, 750⟩ (by decide) (by decide)).2
      (by decide) (by decide) (by decide)⟩

/-- C9: `lf_clock_gettime` never changes the epoch offset, whatever the
offset is and whatever the platform read returns. -/
theorem C9_gettime_preserves_offset (clk : clockid_t) (plat : Platform) (w : World) :
    (lf_clock_gettime clk plat w).world._lf_epoch_offset = w._lf_epoch_offset := by
  unfold lf_clock_gettime
  simp only
  split_ifs <;> rfl

/-! ## Width of the encoder -/

/-- C10 (as stated, refuted): for `(-9223372037, 500000000)` the nanoseconds
lie in `[0, 10^9)` and the exact value `seconds * 10^9 + nanoseconds` fits in
64 bits, but the product `seconds * 10^9`, which the code forms in 64 bits,
does not: the multiplication overflows. -/
theorem C10_product_overflow_counterexample :
    (0 : Int) ≤ 500000000 ∧ (500000000 : Int) < 1000000000 ∧
      fits64 (-9223372037 * 1000000000 + 500000000) ∧
      ¬ fits64 (-9223372037 * 1000000000) ∧
      (mul64 (-9223372037) 1000000000).overflow = true ∧
      (convert_timespec_to_ns ⟨-9223372037, 500000000⟩).overflow = true := by
  decide

/-- C10 (amended): for a split time with nanoseconds in `[0, 10^9)`,
`convert_timespec_to_ns` runs without 64-bit overflow exactly when both the
product `seconds * 10^9` and the sum `seconds * 10^9 + nanoseconds` fit in a
signed 64-bit integer, and in that case it returns exactly that sum. -/
theorem C10_encode_exact_when_product_fits (tp : timespec) (h0 : 0 ≤ tp.tv_nsec)
    (h1 : tp.tv_nsec < 1000000000) :
    ((convert_timespec_to_ns tp).overflow = false ↔
        fits64 (tp.tv_sec * 1000000000) ∧ fits64 (tp.tv_sec * 1000000000 + tp.tv_nsec)) ∧
      (fits64 (tp.tv_sec * 1000000000) → fits64 (tp.tv_sec * 1000000000 + tp.tv_nsec) →
        convert_timespec_to_ns tp = ⟨tp.tv_sec * 1000000000 + tp.tv_nsec, false⟩) ∧
      (0 ≤ tp.tv_sec → fits64 (tp.tv_sec * 1000000000 + tp.tv_nsec) →
        convert_timespec_to_ns tp = ⟨tp.tv_sec * 1000000000 + tp.tv_nsec, false⟩) := by
  refine ⟨encode_overflow_false tp, encode_val_of_fits tp, ?_⟩
  intro hsec hs
  refine encode_val_of_fits tp ?_ hs
  unfold fits64 INT64_MIN INT64_MAX at hs ⊢
  omega

/-- C10 (amended), applied to `(1700000000, 500)`. -/
theorem C10_encode_exact_when_product_fits_witness :
    (0 : Int) ≤ 500 ∧ (500 : Int) < 1000000000 ∧
      fits64 (1700000000 * 1000000000) ∧ fits64 (1700000000 * 1000000000 + 500) ∧
      convert_timespec_to_ns ⟨1700000000, 500⟩ = ⟨1700000000 * 1000000000 + 500, false⟩ :=
  ⟨by decide, by decide, by decide, by decide,
    (C10_encode_exact_when_product_fits ⟨1700000000, 500⟩ (by decide) (by decide)).2.1
      (by decide) (by decide)⟩

/-! ## Properties of the read path -/

/-- C11: a successful `lf_clock_gettime` whose platform read has nanoseconds
in `[0, 10^9)` returns nanoseconds in `[0, 10^9)` whenever the epoch time
`encode(raw) + offset` is non-negative and fits in 64 bits, both when
`encode(raw)` is read as the exact value `sec * 10^9 + nsec` and when it is
read as the 64-bit value returned by `convert_timespec_to_ns`. -/
theorem C11_gettime_nanoseconds_normalised (clk : clockid_t) (plat : Platform) (w : World)
    (hret : 0 ≤ (plat w.clock_calls clk).ret)
    (h0 : 0 ≤ (plat w.clock_calls clk).tp.tv_nsec)
    (h1 : (plat w.clock_calls clk).tp.tv_nsec < 1000000000) :
    (0 ≤ (plat w.clock_calls clk).tp.tv_sec * 1000000000
          + (plat w.clock_calls clk).tp.tv_nsec + w._lf_epoch_offset →
        fits64 ((plat w.clock_calls clk).tp.tv_sec * 1000000000
          + (plat w.clock_calls clk).tp.tv_nsec + w._lf_epoch_offset) →
        0 ≤ (lf_clock_gettime clk plat w).tp.tv_nsec ∧
          (lf_clock_gettime clk plat w).tp.tv_nsec < 1000000000) ∧
      (0 ≤ (convert_timespec_to_ns (plat w.clock_calls clk).tp).val + w._lf_epoch_offset →
        fits64 ((convert_timespec_to_ns (plat w.clock_calls clk).tp).val
          + w._lf_epoch_offset) →
        0 ≤ (lf_clock_gettime clk plat w).tp.tv_nsec ∧
          (lf_clock_gettime clk plat w).tp.tv_nsec < 1000000000) := by
  rw [lf_clock_gettime_tp]
  simp only [not_lt.mpr hret, if_false]
  by_cases hoff : w._lf_epoch_offset = 0
  · simp only [hoff, ne_eq, not_true_eq_false, if_false]
    exact ⟨fun _ _ => ⟨h0, h1⟩, fun _ _ => ⟨h0, h1⟩⟩
  · simp only [ne_eq, hoff, not_false_eq_true, if_true]
    constructor
    · intro hnn hfit
      rw [add64_encode_val_of_fits _ _ hfit]
      exact (decode_spec _).2.1 hnn
    · intro hnn hfit
      rw [add64_of_fits hfit]
      exact (decode_spec _).2.1 hnn

/-- C11, applied to offset `1699999995000000000` and a raw read of
`(5, 999999999)`: the returned nanoseconds are `999999999`. -/
theorem C11_gettime_nanoseconds_normalised_witness :
    (0 : Int) ≤ 5 * 1000000000 + 999999999 + 1699999995000000000 ∧
      fits64 (5 * 1000000000 + 999999999 + 1699999995000000000) ∧
      (lf_clock_gettime CLOCK_MONOTONIC (scriptedPlatform [⟨0, ⟨5, 999999999⟩⟩])
        ⟨1699999995000000000, [], false⟩).tp.tv_nsec = 999999999 ∧
      0 ≤ (lf_clock_gettime CLOCK_MONOTONIC (scriptedPlatform [⟨0, ⟨5, 999999999⟩⟩])
        ⟨1699999995000000000, [], false⟩).tp.tv_nsec ∧
      (lf_clock_gettime CLOCK_MONOTONIC (scriptedPlatform [⟨0, ⟨5, 999999999⟩⟩])
        ⟨1699999995000000000, [], false⟩).tp.tv_nsec < 1000000000 :=
  ⟨by decide, by decide, by decide,
    (C11_gettime_nanoseconds_normalised CLOCK_MONOTONIC
      (scriptedPlatform [⟨0, ⟨5, 999999999⟩⟩]) ⟨1699999995000000000, [], false⟩
      (by decide) (by decide) (by decide)).1 (by decide) (by decide)⟩

/-- C12: whenever the epoch offset is 0, `lf_clock_gettime` hands back exactly
what the platform put in the buffer, for every platform value, together with
the platform's return value and without any arithmetic. And for every prior
state `w0`, whatever offset it holds, initialising with the wall clock and
then reading returns the raw platform read, the platform's return value, and
leaves the offset at 0 after exactly one platform read. -/
theorem C12_zero_offset_returns_raw (clk : clockid_t) (plat : Platform) (w w0 : World) :
    (w._lf_epoch_offset = 0 →
        (lf_clock_gettime clk plat w).tp = (plat w.clock_calls clk).tp ∧
          (lf_clock_gettime clk plat w).return_value = (plat w.clock_calls clk).ret ∧
          (lf_clock_gettime clk plat w).world.overflowed = w.overflowed) ∧
      lf_clock_gettime CLOCK_REALTIME plat (lf_initialize_clock CLOCK_REALTIME plat w0)
        = { return_value := (plat w0.clock_calls CLOCK_REALTIME).ret
            tp := (plat w0.clock_calls CLOCK_REALTIME).tp
            world :=
              { _lf_epoch_offset := 0
                clock_calls := w0.clock_calls ++ [CLOCK_REALTIME]
                overflowed := w0.overflowed } } ∧
      (lf_clock_gettime CLOCK_REALTIME plat (lf_initialize_clock CLOCK_REALTIME plat w0)).tp
        = (plat w0.clock_calls CLOCK_REALTIME).tp := by
  have hwall : lf_clock_gettime CLOCK_REALTIME plat
      (lf_initialize_clock CLOCK_REALTIME plat w0)
      = { return_value := (plat w0.clock_calls CLOCK_REALTIME).ret
          tp := (plat w0.clock_calls CLOCK_REALTIME).tp
          world :=
            { _lf_epoch_offset := 0
              clock_calls := w0.clock_calls ++ [CLOCK_REALTIME]
              overflowed := w0.overflowed } } := by
    unfold lf_initialize_clock calculate_epoch_offset lf_clock_gettime
    simp only [if_true, ne_eq, not_true_eq_false, if_false]
    split_ifs <;> rfl
  refine ⟨?_, hwall, by rw [hwall]⟩
  intro hoff
  refine ⟨?_, ?_, ?_⟩
  · rw [lf_clock_gettime_tp]
    simp only [hoff, ne_eq, not_true_eq_false, if_false, ite_self]
  · unfold lf_clock_gettime
    simp only
    split_ifs <;> rfl
  · unfold lf_clock_gettime
    simp only [hoff, ne_eq, not_true_eq_false, if_false]
    split_ifs <;> rfl

/-- C12, applied twice. With offset 0, a successful read of `(-3, 2000000000)`,
which has negative seconds and nanoseconds that are not normalised, is
returned as it is. With a stale offset of 42, a wall-clock read of
`(1700000000, 123)` would be reported as `(1700000000, 165)`; after
`lf_initialize_clock` with the wall clock it is reported raw, and the offset
is 0. -/
theorem C12_zero_offset_returns_raw_witness :
    ((World.init)._lf_epoch_offset = 0 ∧
      (lf_clock_gettime CLOCK_MONOTONIC (scriptedPlatform [⟨0, ⟨-3, 2000000000⟩⟩])
        World.init).tp = ⟨-3, 2000000000⟩) ∧
      (lf_clock_gettime CLOCK_REALTIME (scriptedPlatform [⟨0, ⟨1700000000, 123⟩⟩])
        ⟨42, [], false⟩).tp = ⟨1700000000, 165⟩ ∧
      lf_clock_gettime CLOCK_REALTIME (scriptedPlatform [⟨0, ⟨1700000000, 123⟩⟩])
          (lf_initialize_clock CLOCK_REALTIME (scriptedPlatform [⟨0, ⟨1700000000, 123⟩⟩])
            ⟨42, [], false⟩)
        = ⟨0, ⟨1700000000, 123⟩, ⟨0, [CLOCK_REALTIME], false⟩⟩ :=
  ⟨⟨by decide,
      ((C12_zero_offset_returns_raw CLOCK_MONOTONIC
        (scriptedPlatform [⟨0, ⟨-3, 2000000000⟩⟩]) World.init World.init).1 (by decide)).1⟩,
    by decide,
    (C12_zero_offset_returns_raw CLOCK_MONOTONIC
      (scriptedPlatform [⟨0, ⟨1700000000, 123⟩⟩]) World.init ⟨42, [], false⟩).2.1⟩

/-! ## Truncating decode -/

/-- C13: `convert_ns_to_timespec` divides with truncation toward zero. For
`t ≥ 0` the fields are the quotient and remainder of `t` by `10^9`; for
`t < 0` they are the negated quotient and remainder of `-t`. Hence a negative
`t` that is not a multiple of `10^9` gets nanoseconds strictly between
`-10^9` and `0`, while every `t ≥ 0` and every multiple of `10^9` gets
nanoseconds in `[0, 10^9)`. -/
theorem C13_decode_truncates (t : Int) :
    (0 ≤ t → convert_ns_to_timespec t = ⟨t / 1000000000, t % 1000000000⟩) ∧
      (t < 0 → convert_ns_to_timespec t
        = ⟨-((-t) / 1000000000), -((-t) % 1000000000)⟩) ∧
      (t < 0 → t % 1000000000 ≠ 0 →
        -1000000000 < (convert_ns_to_timespec t).tv_nsec ∧
          (convert_ns_to_timespec t).tv_nsec < 0) ∧
      ((0 ≤ t ∨ t % 1000000000 = 0) →
        0 ≤ (convert_ns_to_timespec t).tv_nsec ∧
          (convert_ns_to_timespec t).tv_nsec < 1000000000) := by
  refine ⟨?_, ?_, ?_, ?_⟩
  · intro h
    rw [decode_eq_iff]
    omega
  · intro h
    rw [decode_eq_iff]
    omega
  · intro h hne
    obtain ⟨he, -, hneg⟩ := decode_spec t
    have := hneg (by omega)
    omega
  · intro h
    obtain ⟨he, hpos, hneg⟩ := decode_spec t
    rcases Int.le_total 0 t with ht | ht
    · exact hpos ht
    · have := hneg ht
      omega

/-- C13, applied to `t = -1500000000`: the decoder returns `(-1, -500000000)`,
with negative nanoseconds. -/
theorem C13_decode_truncates_witness :
    (-1500000000 : Int) < 0 ∧ (-1500000000 : Int) % 1000000000 ≠ 0 ∧
      convert_ns_to_timespec (-1500000000) = ⟨-1, -500000000⟩ ∧
      -1000000000 < (convert_ns_to_timespec (-1500000000)).tv_nsec ∧
      (convert_ns_to_timespec (-1500000000)).tv_nsec < 0 :=
  ⟨by decide, by decide, by decide,
    (C13_decode_truncates (-1500000000)).2.2.1 (by decide) (by decide)⟩

/-! ## Skew and failure during initialisation -/

/-- C14 (as stated, refuted): the monotonic clock reads `(5, 0)`; 100 ns
later, when it would read `5000000100`, the wall clock reads
`(1700000000, 100)`, so the wall clock is the monotonic clock plus
`D = 1699999995000000000` and time has not run backwards. The offset computed
is `D + 100`, which is larger than `D`. -/
theorem C14_skew_counterexample :
    CLOCK_MONOTONIC ≠ CLOCK_REALTIME ∧
      (convert_timespec_to_ns ⟨5, 0⟩).val ≤ 5000000100 ∧
      (convert_timespec_to_ns ⟨1700000000, 100⟩).val = 5000000100 + 1699999995000000000 ∧
      calculate_epoch_offset CLOCK_MONOTONIC
          (scriptedPlatform [⟨0, ⟨5, 0⟩⟩, ⟨0, ⟨1700000000, 100⟩⟩]) World.init
        = ⟨1699999995000000100, [CLOCK_MONOTONIC, CLOCK_REALTIME], false⟩ ∧
      ¬ ((calculate_epoch_offset CLOCK_MONOTONIC
          (scriptedPlatform [⟨0, ⟨5, 0⟩⟩, ⟨0, ⟨1700000000, 100⟩⟩])
          World.init)._lf_epoch_offset ≤ 1699999995000000000) := by
  decide

/-- C14 (amended): with a clock other than the wall clock,
`calculate_epoch_offset` reads `_LF_CLOCK` first and `CLOCK_REALTIME` second,
once each. If the first read is `s`, and at the moment of the second read the
clock source stands at `m2 ≥ encode(s)` and the wall clock reads `m2 + D`,
then without 64-bit overflow the computed offset is `D + (m2 - encode(s))`:
the true offset plus the time elapsed between the two reads, so it is at
least `D`, never smaller. -/
theorem C14_skew_makes_offset_larger (clk : clockid_t) (plat : Platform) (w : World)
    (s wall : timespec) (m2 D : Int) (hclk : clk ≠ CLOCK_REALTIME)
    (hs : (plat w.clock_calls clk).tp = s)
    (hw : (plat (w.clock_calls ++ [clk]) CLOCK_REALTIME).tp = wall)
    (hov : (calculate_epoch_offset clk plat w).overflowed = false)
    (hmono : (convert_timespec_to_ns s).val ≤ m2)
    (hwall : (convert_timespec_to_ns wall).val = m2 + D) :
    (calculate_epoch_offset clk plat w).clock_calls
        = w.clock_calls ++ [clk, CLOCK_REALTIME] ∧
      (calculate_epoch_offset clk plat w)._lf_epoch_offset
        = D + (m2 - (convert_timespec_to_ns s).val) ∧
      D ≤ (calculate_epoch_offset clk plat w)._lf_epoch_offset := by
  rw [calculate_epoch_offset_of_ne clk plat w hclk] at hov ⊢
  simp only [hs, hw, Bool.or_eq_false_iff, List.append_assoc, List.singleton_append,
    true_and] at hov ⊢
  rw [sub64_of_fits (sub64_overflow_false.1 hov.2)]
  simp only
  omega

/-- C14 (amended), applied to the reads `(5, 0)` and `(1700000000, 100)` with
`D = 1699999995000000000` and `m2 = 5000000100`: the offset is `D + 100`. -/
theorem C14_skew_makes_offset_larger_witness :
    (calculate_epoch_offset CLOCK_MONOTONIC
        (scriptedPlatform [⟨0, ⟨5, 0⟩⟩, ⟨0, ⟨1700000000, 100⟩⟩]) World.init)._lf_epoch_offset
        = 1699999995000000000 + (5000000100 - (convert_timespec_to_ns ⟨5, 0⟩).val) ∧
      (1699999995000000000 : Int)
        ≤ (calculate_epoch_offset CLOCK_MONOTONIC
          (scriptedPlatform [⟨0, ⟨5, 0⟩⟩, ⟨0, ⟨1700000000, 100⟩⟩])
          World.init)._lf_epoch_offset :=
  (C14_skew_makes_offset_larger CLOCK_MONOTONIC
    (scriptedPlatform [⟨0, ⟨5, 0⟩⟩, ⟨0, ⟨1700000000, 100⟩⟩]) World.init
    ⟨5, 0⟩ ⟨1700000000, 100⟩ 5000000100 1699999995000000000
    (by decide) (by decide) (by decide) (by decide) (by decide) (by decide)).2

/-- C15 (evaluation at the failing input): the read of `_LF_CLOCK` fails with
`-1` and leaves `(0, 0)` in the buffer, the wall-clock read succeeds with
`(1700000000, 0)`. `calculate_epoch_offset` ignores the failure and replaces
the default offset 0 by `1700000000000000000`, computed from the buffer of the
failed read. -/
theorem C15_failed_read_overwrites_offset :
    ((scriptedPlatform [⟨-1, ⟨0, 0⟩⟩, ⟨0, ⟨1700000000, 0⟩⟩]) [] CLOCK_MONOTONIC).ret < 0 ∧
      (World.init)._lf_epoch_offset = 0 ∧
      calculate_epoch_offset CLOCK_MONOTONIC
          (scriptedPlatform [⟨-1, ⟨0, 0⟩⟩, ⟨0, ⟨1700000000, 0⟩⟩]) World.init
        = ⟨1700000000000000000, [CLOCK_MONOTONIC, CLOCK_REALTIME], false⟩ ∧
      (calculate_epoch_offset CLOCK_MONOTONIC
          (scriptedPlatform [⟨-1, ⟨0, 0⟩⟩, ⟨0, ⟨1700000000, 0⟩⟩])
          World.init)._lf_epoch_offset ≠ 0 := by
  decide

/-! ## Agreement of the two paths and order of reads -/

/-- C16: the fast path agrees with the slow path. For every epoch offset, 0
included, and every successful platform read `r` with non-negative seconds
and nanoseconds in `[0, 10^9)` such that `r.sec * 10^9 + r.nsec + offset` fits
in 64 bits, `lf_clock_gettime` hands back the decoding of that sum; this is
also what encoding `r`, adding the offset in 64 bits and decoding yields, so
skipping the conversion when the offset is 0 changes nothing. -/
theorem C16_fast_path_agrees (clk : clockid_t) (plat : Platform) (w : World)
    (hret : 0 ≤ (plat w.clock_calls clk).ret)
    (hsec : 0 ≤ (plat w.clock_calls clk).tp.tv_sec)
    (h0 : 0 ≤ (plat w.clock_calls clk).tp.tv_nsec)
    (h1 : (plat w.clock_calls clk).tp.tv_nsec < 1000000000)
    (hfit : fits64 ((plat w.clock_calls clk).tp.tv_sec * 1000000000
      + (plat w.clock_calls clk).tp.tv_nsec + w._lf_epoch_offset)) :
    (lf_clock_gettime clk plat w).tp
        = convert_ns_to_timespec ((plat w.clock_calls clk).tp.tv_sec * 1000000000
          + (plat w.clock_calls clk).tp.tv_nsec + w._lf_epoch_offset) ∧
      (lf_clock_gettime clk plat w).tp
        = convert_ns_to_timespec
          (add64 (convert_timespec_to_ns (plat w.clock_calls clk).tp).val
            w._lf_epoch_offset).val ∧
      ((convert_timespec_to_ns (plat w.clock_calls clk).tp).overflow = false →
        (lf_clock_gettime clk plat w).tp
          = convert_ns_to_timespec
            ((convert_timespec_to_ns (plat w.clock_calls clk).tp).val
              + w._lf_epoch_offset)) := by
  have hsum := add64_encode_val_of_fits (plat w.clock_calls clk).tp w._lf_epoch_offset hfit
  have hslow : (lf_clock_gettime clk plat w).tp
      = convert_ns_to_timespec
        (add64 (convert_timespec_to_ns (plat w.clock_calls clk).tp).val
          w._lf_epoch_offset).val := by
    rw [lf_clock_gettime_tp]
    simp only [not_lt.mpr hret, if_false]
    by_cases hoff : w._lf_epoch_offset = 0
    · simp only [hoff, ne_eq, not_true_eq_false, if_false]
      rw [hoff] at hsum
      rw [hsum]
      generalize (plat w.clock_calls clk).tp = r at hsec h0 h1
      obtain ⟨rs, rn⟩ := r
      simp only at hsec h0 h1 ⊢
      exact ((decode_eq_iff _ rs rn).2 ⟨by omega, Or.inl ⟨by omega, h0, h1⟩⟩).symm
    · simp only [ne_eq, hoff, not_false_eq_true, if_true]
  refine ⟨?_, hslow, ?_⟩
  · rw [hslow, hsum]
  · intro hov
    obtain ⟨hp, hs⟩ := (encode_overflow_false _).1 hov
    rw [hslow, hsum, encode_val_of_fits _ hp hs]

/-- C16, applied twice to a raw read of `(10, 500)`: with offset 0 it comes
back as it is, which is the decoding of its encoding, and with offset
`1699999995000000000` it comes back as `(1700000005, 500)`. -/
theorem C16_fast_path_agrees_witness :
    ((lf_clock_gettime CLOCK_MONOTONIC (scriptedPlatform [⟨0, ⟨10, 500⟩⟩]) World.init).tp
        = convert_ns_to_timespec (10 * 1000000000 + 500 + 0) ∧
      (lf_clock_gettime CLOCK_MONOTONIC (scriptedPlatform [⟨0, ⟨10, 500⟩⟩]) World.init).tp
        = ⟨10, 500⟩) ∧
      ((lf_clock_gettime CLOCK_MONOTONIC (scriptedPlatform [⟨0, ⟨10, 500⟩⟩])
          ⟨1699999995000000000, [], false⟩).tp
        = convert_ns_to_timespec (10 * 1000000000 + 500 + 1699999995000000000) ∧
      convert_ns_to_timespec (10 * 1000000000 + 500 + 1699999995000000000)
        = ⟨1700000005, 500⟩) :=
  ⟨⟨(C16_fast_path_agrees CLOCK_MONOTONIC (scriptedPlatform [⟨0, ⟨10, 500⟩⟩]) World.init
      (by decide) (by decide) (by decide) (by decide) (by decide)).1, by decide⟩,
    ⟨(C16_fast_path_agrees CLOCK_MONOTONIC (scriptedPlatform [⟨0, ⟨10, 500⟩⟩])
      ⟨1699999995000000000, [], false⟩
      (by decide) (by decide) (by decide) (by decide) (by decide)).1, by decide⟩⟩

/-- C17: epoch normalisation preserves the order of clock reads. For two
successful calls of `lf_clock_gettime` under the same epoch offset, with raw
reads `r1`, `r2` such that `encode(r1) ≤ encode(r2)` and adding the offset to
either encoding stays within 64 bits, the results `o1`, `o2` satisfy
`encode(o1) ≤ encode(o2)` and
`encode(o2) - encode(o1) = encode(r2) - encode(r1)`. -/
theorem C17_order_preserved (clk : clockid_t) (plat1 plat2 : Platform) (w1 w2 : World)
    (hoff : w1._lf_epoch_offset = w2._lf_epoch_offset)
    (hret1 : 0 ≤ (plat1 w1.clock_calls clk).ret)
    (hret2 : 0 ≤ (plat2 w2.clock_calls clk).ret)
    (hfit1 : fits64 ((convert_timespec_to_ns (plat1 w1.clock_calls clk).tp).val
      + w1._lf_epoch_offset))
    (hfit2 : fits64 ((convert_timespec_to_ns (plat2 w2.clock_calls clk).tp).val
      + w2._lf_epoch_offset))
    (hle : (convert_timespec_to_ns (plat1 w1.clock_calls clk).tp).val
      ≤ (convert_timespec_to_ns (plat2 w2.clock_calls clk).tp).val) :
    (convert_timespec_to_ns (lf_clock_gettime clk plat1 w1).tp).val
        ≤ (convert_timespec_to_ns (lf_clock_gettime clk plat2 w2).tp).val ∧
      (convert_timespec_to_ns (lf_clock_gettime clk plat2 w2).tp).val
          - (convert_timespec_to_ns (lf_clock_gettime clk plat1 w1).tp).val
        = (convert_timespec_to_ns (plat2 w2.clock_calls clk).tp).val
          - (convert_timespec_to_ns (plat1 w1.clock_calls clk).tp).val := by
  rw [encode_gettime_val clk plat1 w1 hret1 hfit1, encode_gettime_val clk plat2 w2 hret2 hfit2]
  omega

/-- C17, applied to two consecutive reads `(10, 500)` and `(10, 999999900)` of
the monotonic clock under offset `1699999995000000000`: the results are
`(1700000005, 500)` and `(1700000005, 999999900)`, in the same order and the
same `999999400` ns apart. -/
theorem C17_order_preserved_witness :
    (lf_clock_gettime CLOCK_MONOTONIC
        (scriptedPlatform [⟨0, ⟨10, 500⟩⟩, ⟨0, ⟨10, 999999900⟩⟩])
        ⟨1699999995000000000, [], false⟩).tp = ⟨1700000005, 500⟩ ∧
      (lf_clock_gettime CLOCK_MONOTONIC
        (scriptedPlatform [⟨0, ⟨10, 500⟩⟩, ⟨0, ⟨10, 999999900⟩⟩])
        (lf_clock_gettime CLOCK_MONOTONIC
          (scriptedPlatform [⟨0, ⟨10, 500⟩⟩, ⟨0, ⟨10, 999999900⟩⟩])
          ⟨1699999995000000000, [], false⟩).world).tp = ⟨1700000005, 999999900⟩ ∧
      (convert_timespec_to_ns ⟨1700000005, 500⟩).val
        ≤ (convert_timespec_to_ns ⟨1700000005, 999999900⟩).val ∧
      (convert_timespec_to_ns ⟨1700000005, 999999900⟩).val
          - (convert_timespec_to_ns ⟨1700000005, 500⟩).val
        = (convert_timespec_to_ns ⟨10, 999999900⟩).val
          - (convert_timespec_to_ns ⟨10, 500⟩).val :=
  ⟨by decide, by decide,
    C17_order_preserved CLOCK_MONOTONIC
      (scriptedPlatform [⟨0, ⟨10, 500⟩⟩, ⟨0, ⟨10, 999999900⟩⟩])
      (scriptedPlatform [⟨0, ⟨10, 500⟩⟩, ⟨0, ⟨10, 999999900⟩⟩])
      ⟨1699999995000000000, [], false⟩
      (lf_clock_gettime CLOCK_MONOTONIC
        (scriptedPlatform [⟨0, ⟨10, 500⟩⟩, ⟨0, ⟨10, 999999900⟩⟩])
        ⟨1699999995000000000, [], false⟩).world
      (by decide) (by decide) (by decide) (by decide) (by decide) (by decide)⟩

end LfUnixClock
